import Mathlib

/-!
Verification of the RDS health-dashboard core (`rds_enhanced/handler.py`):
threshold evaluation, issue aggregation, and report rendering.  Python
floats are modelled as rationals; a metric reading that is absent (no
datapoint in the lookback window) is `none`.
-/

namespace RdsDash

/-- The three-level health status used for every evaluated dimension. -/
inductive Status
  | OK
  | WARN
  | ALERT
deriving DecidableEq

/-- The WARN/ALERT cutoff configuration read from the environment at the
start of `run` (`WRITE_LAT_WARN`, ..., `FREE_PCT_ALERT`). -/
structure Thresholds where
  writeWarn : ℚ
  writeAlert : ℚ
  readWarn : ℚ
  readAlert : ℚ
  cpuWarn : ℚ
  cpuAlert : ℚ
  freeWarn : ℚ
  freeAlert : ℚ
deriving DecidableEq

/-- The default cutoffs: write 200/300 ms, read 200/300 ms, CPU 70/90 %,
free space 20/10 %. -/
def defaultThresholds : Thresholds :=
  ⟨200, 300, 200, 300, 70, 90, 20, 10⟩

/-- One database instance together with the metric readings and the
pending-maintenance action names fetched for it during the run.  `none`
readings model a missing datapoint (or a swallowed fetch error). -/
structure DBInstance where
  dbid : String
  nameTag : Option String
  engine : String
  publiclyAccessible : Bool
  storageEncrypted : Bool
  allocGb : Option ℤ
  maxAllocGb : Option ℤ
  wlat : Option ℚ
  rlat : Option ℚ
  cpu : Option ℚ
  freeStoreB : Option ℚ
  conns : Option ℚ
  pendingDetails : List String
deriving DecidableEq

/-- `write_ms = None if wlat is None else float(wlat)*1000.0`. -/
def write_ms (i : DBInstance) : Option ℚ :=
  i.wlat.map (fun v => v * 1000)

/-- `read_ms = None if rlat is None else float(rlat)*1000.0`. -/
def read_ms (i : DBInstance) : Option ℚ :=
  i.rlat.map (fun v => v * 1000)

/-- `cpu_pct = None if cpu is None else float(cpu)`. -/
def cpu_pct (i : DBInstance) : Option ℚ :=
  i.cpu

/-- Free-space percent: set only when the free-byte reading is present and
`alloc_gb` is truthy (non-missing and non-zero); `total_b = alloc_gb*1024**3`
and the percent is kept only when `total_b > 0`. -/
def free_pct (i : DBInstance) : Option ℚ :=
  match i.freeStoreB, i.allocGb with
  | some f, some a =>
      if a = 0 then none
      else if 0 < (a : ℚ) * 1024 ^ 3 then some (f / ((a : ℚ) * 1024 ^ 3) * 100)
      else none
  | _, _ => none

/-- `v is not None and v >= c` — the ALERT test for the ≥-directed metrics. -/
def isGeCut (v : Option ℚ) (c : ℚ) : Bool :=
  match v with
  | none => false
  | some m => decide (c ≤ m)

/-- `v is not None and v <= c` — the ALERT test for free space. -/
def isLeCut (v : Option ℚ) (c : ℚ) : Bool :=
  match v with
  | none => false
  | some m => decide (m ≤ c)

/-- `v and v >= c` — Python truthiness: a missing or zero value short-circuits
to false before the comparison runs. -/
def truthyGe (v : Option ℚ) (c : ℚ) : Bool :=
  match v with
  | none => false
  | some m => decide (m ≠ 0) && decide (c ≤ m)

/-- `v and v <= c` — Python truthiness for the ≤-directed WARN test. -/
def truthyLe (v : Option ℚ) (c : ℚ) : Bool :=
  match v with
  | none => false
  | some m => decide (m ≠ 0) && decide (m ≤ c)

/-- `public_alert = public`. -/
def public_alert (i : DBInstance) : Bool :=
  i.publiclyAccessible

/-- `enc_disabled = not enc`. -/
def enc_disabled (i : DBInstance) : Bool :=
  !i.storageEncrypted

/-- `write_alert = (write_ms is not None and write_ms >= WRITE_ALERT)`. -/
def write_alert (i : DBInstance) (t : Thresholds) : Bool :=
  isGeCut (write_ms i) t.writeAlert

/-- `read_alert = (read_ms is not None and read_ms >= READ_ALERT)`. -/
def read_alert (i : DBInstance) (t : Thresholds) : Bool :=
  isGeCut (read_ms i) t.readAlert

/-- `cpu_alert = (cpu_pct is not None and cpu_pct >= CPU_ALERT)`. -/
def cpu_alert (i : DBInstance) (t : Thresholds) : Bool :=
  isGeCut (cpu_pct i) t.cpuAlert

/-- `free_alert = (free_pct is not None and free_pct <= FREE_ALERT)`. -/
def free_alert (i : DBInstance) (t : Thresholds) : Bool :=
  isLeCut (free_pct i) t.freeAlert

/-- `autoscale_disabled = not (isinstance(alloc_gb, int) and
isinstance(max_alloc_gb, int) and max_alloc_gb > alloc_gb)`. -/
def autoscale_disabled (i : DBInstance) : Bool :=
  !(match i.allocGb, i.maxAllocGb with
    | some a, some m => decide (a < m)
    | _, _ => false)

/-- `row_has_issue = any([public_alert, enc_disabled, write_alert, read_alert,
cpu_alert, free_alert, autoscale_disabled])`. -/
def row_has_issue (i : DBInstance) (t : Thresholds) : Bool :=
  public_alert i || enc_disabled i || write_alert i t || read_alert i t ||
    cpu_alert i t || free_alert i t || autoscale_disabled i

/-- Status of the public-access cell: `'ALERT' if public_alert else 'OK'`. -/
def publicStatus (i : DBInstance) : Status :=
  if public_alert i then Status.ALERT else Status.OK

/-- Status of the encryption cell: `'ALERT' if enc_disabled else 'OK'`. -/
def encStatus (i : DBInstance) : Status :=
  if enc_disabled i then Status.ALERT else Status.OK

/-- Status of the write-latency cell:
`'ALERT' if write_alert else 'WARN' if (write_ms and write_ms>=WRITE_WARN) else 'OK'`. -/
def writeStatus (i : DBInstance) (t : Thresholds) : Status :=
  if write_alert i t then Status.ALERT
  else if truthyGe (write_ms i) t.writeWarn then Status.WARN
  else Status.OK

/-- Status of the read-latency cell. -/
def readStatus (i : DBInstance) (t : Thresholds) : Status :=
  if read_alert i t then Status.ALERT
  else if truthyGe (read_ms i) t.readWarn then Status.WARN
  else Status.OK

/-- Status of the CPU cell. -/
def cpuStatus (i : DBInstance) (t : Thresholds) : Status :=
  if cpu_alert i t then Status.ALERT
  else if truthyGe (cpu_pct i) t.cpuWarn then Status.WARN
  else Status.OK

/-- Status of the free-space cell:
`'ALERT' if free_alert else 'WARN' if (free_pct and free_pct<=FREE_WARN) else 'OK'`. -/
def freeStatus (i : DBInstance) (t : Thresholds) : Status :=
  if free_alert i t then Status.ALERT
  else if truthyLe (free_pct i) t.freeWarn then Status.WARN
  else Status.OK

/-- Status of the autoscaling cell: `'ALERT' if autoscale_disabled else 'OK'`. -/
def autoscaleStatus (i : DBInstance) : Status :=
  if autoscale_disabled i then Status.ALERT else Status.OK

/-- `pending_has`: some pending maintenance action detail exists. -/
def pending_has (i : DBInstance) : Bool :=
  !i.pendingDetails.isEmpty

/-- `pending_lvl = "WARN" if pending_has else "OK"`. -/
def pendingStatus (i : DBInstance) : Status :=
  if pending_has i then Status.WARN else Status.OK

/-- The status glyph: `{"OK": green, "WARN": yellow, "ALERT": red}`. -/
def dot : Status → String
  | Status.OK => "🟢"
  | Status.WARN => "🟡"
  | Status.ALERT => "🔴"

/-- Round-half-to-even to an integer, modelling Python's `f"{v:.0f}"`
formatting of an exact value. -/
def roundHalfEven (q : ℚ) : ℤ :=
  let f := Int.fdiv q.num (q.den : ℤ)
  let r2 := 2 * (q.num - f * (q.den : ℤ))
  if r2 < (q.den : ℤ) then f
  else if (q.den : ℤ) < r2 then f + 1
  else if f % 2 = 0 then f else f + 1

/-- `_fmt_pct`: `"N/A" if v is None else f"{float(v):.0f}%"`. -/
def fmt_pct (v : Option ℚ) : String :=
  match v with
  | none => "N/A"
  | some q => toString (roundHalfEven q) ++ "%"

/-- `_fmt_ms`: `"N/A" if v is None else f"{float(v):.0f} ms"`. -/
def fmt_ms (v : Option ℚ) : String :=
  match v with
  | none => "N/A"
  | some q => toString (roundHalfEven q) ++ " ms"

/-- Truncation toward zero, modelling Python's `int()` on an exact value. -/
def ratTrunc (q : ℚ) : ℤ :=
  q.num / (q.den : ℤ)

/-- `_rds_link`: the console URL for one instance. -/
def rds_link (region dbid : String) : String :=
  "https://" ++ region ++ ".console.aws.amazon.com/rds/home?region=" ++ region ++
    "#database:id=" ++ dbid

/-- `db_cell_email`: HTML anchor(s) for the DB id and optional name tag. -/
def db_cell_email (url dbid : String) (nameTag : Option String) : String :=
  "<a href='" ++ url ++ "'>" ++ dbid ++ "</a>" ++
    (match nameTag with
     | some n => "<br/><a href='" ++ url ++ "'>" ++ n ++ "</a>"
     | none => "")

/-- `db_cell_teams`: Markdown link(s) for the DB id and optional name tag. -/
def db_cell_teams (url dbid : String) (nameTag : Option String) : String :=
  "[" ++ dbid ++ "](" ++ url ++ ")" ++
    (match nameTag with
     | some n => "\n" ++ "[" ++ n ++ "](" ++ url ++ ")"
     | none => "")

/-- `pending_txt`: `"None"` when no action is pending, else the sorted,
comma-joined distinct non-empty action names (`"Yes"` when all names were
empty). -/
def pending_txt (i : DBInstance) : String :=
  if pending_has i then
    let names := ((i.pendingDetails.filter (fun nm => nm ≠ "")).dedup).mergeSort
      (fun a b => decide (a ≤ b))
    let joined := String.intercalate ", " names
    if joined = "" then "Yes" else joined
  else "None"

/-- The public-access cell string. -/
def public_cell (i : DBInstance) : String :=
  dot (publicStatus i) ++ " " ++ (if i.publiclyAccessible then "Yes" else "No")

/-- The encryption cell string. -/
def enc_cell (i : DBInstance) : String :=
  dot (encStatus i) ++ " " ++ (if enc_disabled i then "Disabled" else "Enabled")

/-- The write-latency cell string. -/
def write_cell (i : DBInstance) (t : Thresholds) : String :=
  dot (writeStatus i t) ++ " " ++ fmt_ms (write_ms i)

/-- The read-latency cell string. -/
def read_cell (i : DBInstance) (t : Thresholds) : String :=
  dot (readStatus i t) ++ " " ++ fmt_ms (read_ms i)

/-- The CPU cell string. -/
def cpu_cell (i : DBInstance) (t : Thresholds) : String :=
  dot (cpuStatus i t) ++ " " ++ fmt_pct (cpu_pct i)

/-- The free-space cell string. -/
def free_cell (i : DBInstance) (t : Thresholds) : String :=
  dot (freeStatus i t) ++ " " ++ fmt_pct (free_pct i)

/-- `conns_cell = f"{int(conns):d}" if isinstance(conns,(int,float)) else "N/A"`. -/
def conns_cell (i : DBInstance) : String :=
  match i.conns with
  | some c => toString (ratTrunc c)
  | none => "N/A"

/-- The pending-maintenance cell string. -/
def pending_cell (i : DBInstance) : String :=
  dot (pendingStatus i) ++ " " ++ pending_txt i

/-- The autoscaling cell string. -/
def autoscale_cell (i : DBInstance) : String :=
  dot (autoscaleStatus i) ++ " " ++
    (if autoscale_disabled i then "Disabled" else "Enabled")

/-- One 12-component row appended to `rows` for every instance: the fields
mirror the tuple `(db_cell_email, engine, public_cell, enc_cell, write_cell,
read_cell, cpu_cell, free_cell, conns_cell, pending_cell, autoscale_cell,
db_cell_teams)`. -/
structure Row where
  dbCellEmail : String
  rowEngine : String
  publicCell : String
  encCell : String
  writeCell : String
  readCell : String
  cpuCell : String
  freeCell : String
  connsCell : String
  pendingCell : String
  autoscaleCell : String
  dbCellTeams : String
deriving DecidableEq

/-- The row built for one instance inside the `run` loop. -/
def evalRow (region : String) (i : DBInstance) (t : Thresholds) : Row where
  dbCellEmail := db_cell_email (rds_link region i.dbid) i.dbid i.nameTag
  rowEngine := i.engine
  publicCell := public_cell i
  encCell := enc_cell i
  writeCell := write_cell i t
  readCell := read_cell i t
  cpuCell := cpu_cell i t
  freeCell := free_cell i t
  connsCell := conns_cell i
  pendingCell := pending_cell i
  autoscaleCell := autoscale_cell i
  dbCellTeams := db_cell_teams (rds_link region i.dbid) i.dbid i.nameTag

/-- The full `rows` list, in inventory-listing order. -/
def rowsOf (region : String) (t : Thresholds) (instances : List DBInstance) :
    List Row :=
  instances.map (fun i => evalRow region i t)

/-- The `issue_flags` list, parallel to `rows`. -/
def issueFlagsOf (t : Thresholds) (instances : List DBInstance) : List Bool :=
  instances.map (fun i => row_has_issue i t)

/-- `failing_rows = [r for r, bad in zip(rows, issue_flags) if bad]`. -/
def failingRows (region : String) (t : Thresholds)
    (instances : List DBInstance) : List Row :=
  (((rowsOf region t instances).zip (issueFlagsOf t instances)).filter
    (fun p => p.2)).map (fun p => p.1)

/-- The cells of one Teams-card data row:
`[r[11], r[1], r[2], ..., r[10]]`. -/
def teamsRowCells (r : Row) : List String :=
  [r.dbCellTeams, r.rowEngine, r.publicCell, r.encCell, r.writeCell,
   r.readCell, r.cpuCell, r.freeCell, r.connsCell, r.pendingCell,
   r.autoscaleCell]

/-- The cells of one email-table data row: `r[0]` through `r[10]`. -/
def emailRowCells (r : Row) : List String :=
  [r.dbCellEmail, r.rowEngine, r.publicCell, r.encCell, r.writeCell,
   r.readCell, r.cpuCell, r.freeCell, r.connsCell, r.pendingCell,
   r.autoscaleCell]

/-- The data rows of the Teams card, one per failing report. -/
def renderCardRows (rows : List Row) : List (List String) :=
  rows.map teamsRowCells

/-- The data rows of the email table (and of the plain-text fallback), one
per failing report. -/
def renderEmailRows (rows : List Row) : List (List String) :=
  rows.map emailRowCells

/-- The structured outcome returned by `run`. -/
structure RunResult where
  ok : Bool
  instances : ℕ
  sent : Bool
  reason : Option String
  issues : Option ℕ
deriving DecidableEq

/-- The control flow of `run` after the per-instance loop: empty inventory
and no-failing-row early returns, else dispatch with the failing count. -/
def run (region : String) (t : Thresholds) (instances : List DBInstance) :
    RunResult :=
  if (rowsOf region t instances).isEmpty then
    { ok := true, instances := 0, sent := false,
      reason := some "no-instances", issues := none }
  else if (failingRows region t instances).isEmpty then
    { ok := true, instances := (rowsOf region t instances).length, sent := false,
      reason := some "no-issues", issues := none }
  else
    { ok := true, instances := (rowsOf region t instances).length, sent := true,
      reason := none, issues := some (failingRows region t instances).length }

/-- Replace only the pending-maintenance details of an instance. -/
def setPending (i : DBInstance) (acts : List String) : DBInstance :=
  { i with pendingDetails := acts }

/-- Replace only the connection-count reading of an instance. -/
def setConns (i : DBInstance) (c : Option ℚ) : DBInstance :=
  { i with conns := c }

/-- A fully healthy instance: private, encrypted, autoscaling headroom
present, and no datapoint for any metric. -/
def iAllOk : DBInstance :=
  { dbid := "db-ok", nameTag := none, engine := "mysql",
    publiclyAccessible := false, storageEncrypted := true,
    allocGb := some 100, maxAllocGb := some 200,
    wlat := none, rlat := none, cpu := none, freeStoreB := none,
    conns := none, pendingDetails := [] }

/-- Healthy on all seven aggregated dimensions, but with one pending
maintenance action. -/
def iPendingOnly : DBInstance :=
  { iAllOk with pendingDetails := ["system-update"] }

/-- Healthy except for being publicly accessible. -/
def iPublicOn : DBInstance :=
  { iAllOk with publiclyAccessible := true }

/-- Healthy except for a write-latency reading of exactly 0 seconds. -/
def iZeroWrite : DBInstance :=
  { iAllOk with wlat := some 0 }

/-- Cutoffs whose write-latency WARN boundary is 0 ms. -/
def tZeroWarn : Thresholds :=
  ⟨0, 300, 200, 300, 70, 90, 20, 10⟩

/-- Healthy except for a write-latency reading of 1 second. -/
def iOneSec : DBInstance :=
  { iAllOk with wlat := some 1 }

/-- Healthy except for a write-latency reading of 2 seconds. -/
def iTwoSec : DBInstance :=
  { iAllOk with wlat := some 2 }

/-- Cutoffs with write-latency WARN at 1000 ms and ALERT at 2000 ms. -/
def tKiloCut : Thresholds :=
  ⟨1000, 2000, 1000, 2000, 70, 90, 20, 10⟩

/-- 100 GB allocated with a free-storage reading of 10 GiB. -/
def iTenPct : DBInstance :=
  { iAllOk with freeStoreB := some 10737418240 }

/-- Healthy except for a write-latency reading of 0.25 seconds. -/
def iQuarterSec : DBInstance :=
  { iAllOk with wlat := some (1 / 4) }

/-- Readings that are all present and all exactly zero. -/
def iZeroMetrics : DBInstance :=
  { iAllOk with wlat := some 0, rlat := some 0, cpu := some 0,
                freeStoreB := some 0 }

/-- A binary cell status is ALERT exactly when its flag is set. -/
lemma status_ite2_eq_alert (b : Bool) :
    (if b then Status.ALERT else Status.OK) = Status.ALERT ↔ b = true := by
  cases b <;> simp

/-- A three-band cell status is ALERT exactly when its ALERT flag is set. -/
lemma status_ite3_eq_alert (b c : Bool) :
    (if b then Status.ALERT else if c then Status.WARN else Status.OK) =
      Status.ALERT ↔ b = true := by
  cases b <;> cases c <;> simp

/-- The zip-and-filter over parallel `rows`/`issue_flags` lists equals the
direct filter of the instance list followed by row construction. -/
lemma failingRows_eq (region : String) (t : Thresholds)
    (instances : List DBInstance) :
    failingRows region t instances =
      (instances.filter (fun i => row_has_issue i t)).map
        (fun i => evalRow region i t) := by
  induction instances with
  | nil => rfl
  | cons a l ih =>
      simp only [failingRows, rowsOf, issueFlagsOf, List.map_cons,
        List.zip_cons_cons, List.filter_cons] at ih ⊢
      cases h : row_has_issue a t <;> simp [h, ih]

/-- C1: an instance is failing iff at least one of the seven aggregated
dimensions (public access, encryption, write latency, read latency, CPU,
free space, autoscaling) is in its ALERT/bad state; the flag ignores the
pending-maintenance details, so an instance whose only non-OK condition is
a pending-maintenance WARN is never failing. -/
theorem row_has_issue_iff_alert (t : Thresholds) (i : DBInstance) :
    (row_has_issue i t = true ↔
      (publicStatus i = Status.ALERT ∨ encStatus i = Status.ALERT ∨
       writeStatus i t = Status.ALERT ∨ readStatus i t = Status.ALERT ∨
       cpuStatus i t = Status.ALERT ∨ freeStatus i t = Status.ALERT ∨
       autoscaleStatus i = Status.ALERT)) ∧
    (∀ acts : List String,
      row_has_issue (setPending i acts) t = row_has_issue i t) ∧
    ((publicStatus i ≠ Status.ALERT ∧ encStatus i ≠ Status.ALERT ∧
      writeStatus i t ≠ Status.ALERT ∧ readStatus i t ≠ Status.ALERT ∧
      cpuStatus i t ≠ Status.ALERT ∧ freeStatus i t ≠ Status.ALERT ∧
      autoscaleStatus i ≠ Status.ALERT) →
      pendingStatus i = Status.WARN → row_has_issue i t = false) := by
  have key : row_has_issue i t = true ↔
      (publicStatus i = Status.ALERT ∨ encStatus i = Status.ALERT ∨
       writeStatus i t = Status.ALERT ∨ readStatus i t = Status.ALERT ∨
       cpuStatus i t = Status.ALERT ∨ freeStatus i t = Status.ALERT ∨
       autoscaleStatus i = Status.ALERT) := by
    simp only [publicStatus, encStatus, writeStatus, readStatus, cpuStatus,
      freeStatus, autoscaleStatus, status_ite2_eq_alert, status_ite3_eq_alert,
      row_has_issue, Bool.or_eq_true]
    tauto
  refine ⟨key, fun acts => rfl, ?_⟩
  intro h _hp
  obtain ⟨n1, n2, n3, n4, n5, n6, n7⟩ := h
  cases hq : row_has_issue i t
  · rfl
  · exfalso
    rcases key.mp hq with h' | h' | h' | h' | h' | h' | h'
    exacts [n1 h', n2 h', n3 h', n4 h', n5 h', n6 h', n7 h']

/-- C1 witness: an otherwise healthy instance with a pending maintenance
action shows pending WARN but is not failing. -/
theorem row_has_issue_iff_alert_witness :
    pendingStatus iPendingOnly = Status.WARN ∧
    row_has_issue iPendingOnly defaultThresholds = false :=
  ⟨by decide,
   (row_has_issue_iff_alert defaultThresholds iPendingOnly).2.2
     ⟨by decide, by decide, by decide, by decide, by decide, by decide,
      by decide⟩ (by decide)⟩

/-- C2: for each of the five metric dimensions, a missing reading yields
status OK (never WARN/ALERT) under every cutoff configuration and is
displayed as the literal `"N/A"`; the connection count has no status at all
and never influences the failing flag. -/
theorem unknown_reading_is_ok (t : Thresholds) (i : DBInstance) :
    (i.wlat = none → writeStatus i t = Status.OK ∧ fmt_ms (write_ms i) = "N/A") ∧
    (i.rlat = none → readStatus i t = Status.OK ∧ fmt_ms (read_ms i) = "N/A") ∧
    (i.cpu = none → cpuStatus i t = Status.OK ∧ fmt_pct (cpu_pct i) = "N/A") ∧
    (i.freeStoreB = none →
      freeStatus i t = Status.OK ∧ fmt_pct (free_pct i) = "N/A") ∧
    (i.conns = none → conns_cell i = "N/A") ∧
    (∀ c, row_has_issue (setConns i c) t = row_has_issue i t) := by
  refine ⟨?_, ?_, ?_, ?_, ?_, fun c => rfl⟩
  · intro h
    have hm : write_ms i = none := by simp [write_ms, h]
    simp [writeStatus, write_alert, isGeCut, truthyGe, hm, fmt_ms]
  · intro h
    have hm : read_ms i = none := by simp [read_ms, h]
    simp [readStatus, read_alert, isGeCut, truthyGe, hm, fmt_ms]
  · intro h
    have hm : cpu_pct i = none := by simp [cpu_pct, h]
    simp [cpuStatus, cpu_alert, isGeCut, truthyGe, hm, fmt_pct]
  · intro h
    have hm : free_pct i = none := by
      cases hA : i.allocGb <;> simp [free_pct, h, hA]
    simp [freeStatus, free_alert, isLeCut, truthyLe, hm, fmt_pct]
  · intro h
    simp [conns_cell, h]

/-- C2 witness: the all-unknown instance evaluates to OK with `"N/A"`
displays. -/
theorem unknown_reading_is_ok_witness :
    (writeStatus iAllOk defaultThresholds = Status.OK ∧
      fmt_ms (write_ms iAllOk) = "N/A") ∧
    conns_cell iAllOk = "N/A" :=
  ⟨(unknown_reading_is_ok defaultThresholds iAllOk).1 rfl,
   (unknown_reading_is_ok defaultThresholds iAllOk).2.2.2.2.1 rfl⟩

/-- C7: autoscaling headroom is Enabled (status OK) iff both storage fields
are known integers with max strictly greater than allocated; every other
combination is Disabled (status ALERT). -/
theorem autoscaling_enabled_iff (i : DBInstance) :
    (autoscaleStatus i = Status.OK ∨ autoscaleStatus i = Status.ALERT) ∧
    (autoscaleStatus i = Status.OK ↔
      ∃ a m, i.allocGb = some a ∧ i.maxAllocGb = some m ∧ a < m) ∧
    (autoscale_disabled i = false ↔
      ∃ a m, i.allocGb = some a ∧ i.maxAllocGb = some m ∧ a < m) := by
  rcases hA : i.allocGb with _ | a <;> rcases hM : i.maxAllocGb with _ | m
  · simp [autoscaleStatus, autoscale_disabled, hA, hM]
  · simp [autoscaleStatus, autoscale_disabled, hA, hM]
  · simp [autoscaleStatus, autoscale_disabled, hA, hM]
  · by_cases h : a < m <;>
      simp [autoscaleStatus, autoscale_disabled, hA, hM, h]

/-- C3 counterexample: with WARN cutoff 0 and ALERT cutoff 300, a known
write-latency value of exactly the WARN cutoff (0 ms) does not meet the
ALERT cutoff, yet evaluates to OK rather than WARN, because the WARN
comparison is skipped for a falsy (zero) value. -/
theorem warn_boundary_zero_cex :
    write_ms iZeroWrite = some tZeroWarn.writeWarn ∧
    ¬ tZeroWarn.writeAlert ≤ tZeroWarn.writeWarn ∧
    write_alert iZeroWrite tZeroWarn = false ∧
    writeStatus iZeroWrite tZeroWarn = Status.OK := by
  have h0 : write_ms iZeroWrite = some 0 := by
    simp [write_ms, iZeroWrite]
  refine ⟨by rw [h0]; decide, by decide, ?_, ?_⟩
  · rw [write_alert, h0]; decide
  · rw [writeStatus, write_alert, h0]; decide

/-- C3 (amended): for the four cutoff dimensions, a known value meeting the
ALERT cutoff (inclusive, so in particular a value exactly at it, and also
whenever the WARN cutoff is met as well — ALERT is checked first) evaluates
to ALERT; a known **non-zero** value at or past the WARN cutoff that does
not meet the ALERT cutoff evaluates to WARN. -/
theorem warn_alert_boundaries (i : DBInstance) (t : Thresholds) :
    (∀ m, write_ms i = some m → t.writeAlert ≤ m →
      writeStatus i t = Status.ALERT) ∧
    (∀ m, write_ms i = some m → m ≠ 0 → t.writeWarn ≤ m →
      ¬ t.writeAlert ≤ m → writeStatus i t = Status.WARN) ∧
    (∀ m, read_ms i = some m → t.readAlert ≤ m →
      readStatus i t = Status.ALERT) ∧
    (∀ m, read_ms i = some m → m ≠ 0 → t.readWarn ≤ m →
      ¬ t.readAlert ≤ m → readStatus i t = Status.WARN) ∧
    (∀ m, cpu_pct i = some m → t.cpuAlert ≤ m →
      cpuStatus i t = Status.ALERT) ∧
    (∀ m, cpu_pct i = some m → m ≠ 0 → t.cpuWarn ≤ m →
      ¬ t.cpuAlert ≤ m → cpuStatus i t = Status.WARN) ∧
    (∀ m, free_pct i = some m → m ≤ t.freeAlert →
      freeStatus i t = Status.ALERT) ∧
    (∀ m, free_pct i = some m → m ≠ 0 → m ≤ t.freeWarn →
      ¬ m ≤ t.freeAlert → freeStatus i t = Status.WARN) := by
  refine ⟨?_, ?_, ?_, ?_, ?_, ?_, ?_, ?_⟩
  · intro m hm hA; simp [writeStatus, write_alert, isGeCut, hm, hA]
  · intro m hm h0 hW hA
    simp [writeStatus, write_alert, isGeCut, truthyGe, hm, h0, hW, hA]
  · intro m hm hA; simp [readStatus, read_alert, isGeCut, hm, hA]
  · intro m hm h0 hW hA
    simp [readStatus, read_alert, isGeCut, truthyGe, hm, h0, hW, hA]
  · intro m hm hA; simp [cpuStatus, cpu_alert, isGeCut, hm, hA]
  · intro m hm h0 hW hA
    simp [cpuStatus, cpu_alert, isGeCut, truthyGe, hm, h0, hW, hA]
  · intro m hm hA; simp [freeStatus, free_alert, isLeCut, hm, hA]
  · intro m hm h0 hW hA
    simp [freeStatus, free_alert, isLeCut, truthyLe, hm, h0, hW, hA]

/-- C3 witness: with cutoffs 1000/2000 ms, a 2-second write latency sits
exactly at the ALERT cutoff and is ALERT, and a 1-second write latency sits
exactly at the WARN cutoff and is WARN. -/
theorem warn_alert_boundaries_witness :
    writeStatus iTwoSec tKiloCut = Status.ALERT ∧
    writeStatus iOneSec tKiloCut = Status.WARN :=
  ⟨(warn_alert_boundaries iTwoSec tKiloCut).1 2000
      (by norm_num [write_ms, iTwoSec]) (by decide),
   (warn_alert_boundaries iOneSec tKiloCut).2.1 1000
      (by norm_num [write_ms, iOneSec]) (by decide) (by decide)
      (by decide)⟩

/-- C8: free-space percent is `free / (alloc * 1024^3) * 100` exactly when
the free-byte reading is known and the allocated storage is known and
positive, and is unknown otherwise; for 100 GB allocated and 10 GiB free
the percent is exactly 10, which is ALERT under the default cutoff 10. -/
theorem free_pct_spec (i : DBInstance) :
    (∀ f a, i.freeStoreB = some f → i.allocGb = some a → 0 < a →
      free_pct i = some (f / ((a : ℚ) * 1024 ^ 3) * 100)) ∧
    (∀ p, free_pct i = some p →
      ∃ f a, i.freeStoreB = some f ∧ i.allocGb = some a ∧ 0 < a ∧
        p = f / ((a : ℚ) * 1024 ^ 3) * 100) ∧
    (i.freeStoreB = some 10737418240 → i.allocGb = some 100 →
      free_pct i = some 10 ∧ freeStatus i defaultThresholds = Status.ALERT) := by
  refine ⟨?_, ?_, ?_⟩
  · intro f a hf ha hpos
    have hne : ¬ a = 0 := by omega
    have haq : (0 : ℚ) < (a : ℚ) := by exact_mod_cast hpos
    have htot : (0 : ℚ) < (a : ℚ) * 1024 ^ 3 := by positivity
    simp [free_pct, hf, ha, hne, htot]
  · intro p hp
    rcases hf : i.freeStoreB with _ | f <;> rcases ha : i.allocGb with _ | a <;>
      simp only [free_pct, hf, ha] at hp
    · simp at hp
    · simp at hp
    · simp at hp
    · by_cases hz : a = 0
      · rw [if_pos hz] at hp; simp at hp
      · rw [if_neg hz] at hp
        by_cases htot : (0 : ℚ) < (a : ℚ) * 1024 ^ 3
        · rw [if_pos htot] at hp
          have haq : (0 : ℚ) < (a : ℚ) := by
            by_contra hle
            push_neg at hle
            nlinarith [htot]
          have hpos : 0 < a := by exact_mod_cast haq
          exact ⟨f, a, rfl, rfl, hpos, (Option.some_inj.mp hp).symm⟩
        · rw [if_neg htot] at hp; simp at hp
  · intro hf ha
    have hval : free_pct i = some 10 := by
      rw [free_pct, hf, ha]
      norm_num
    refine ⟨hval, ?_⟩
    rw [freeStatus, free_alert, hval]
    decide

/-- C8 witness: the concrete 100 GB / 10 GiB instance has exactly 10 % free
space and is ALERT under the default cutoffs. -/
theorem free_pct_spec_witness :
    free_pct iTenPct = some 10 ∧
    freeStatus iTenPct defaultThresholds = Status.ALERT :=
  (free_pct_spec iTenPct).2.2 rfl rfl

/-- C9: latency readings are converted from seconds to milliseconds by
multiplying by 1000 before both thresholding and display; a write-latency
reading of 0.25 s is shown as `"250 ms"` and is WARN under the default
200/300 cutoffs. -/
theorem latency_ms_conversion (i : DBInstance) (t : Thresholds) :
    (∀ v, i.wlat = some v → write_ms i = some (v * 1000)) ∧
    (∀ v, i.rlat = some v → read_ms i = some (v * 1000)) ∧
    (write_alert i t = true ↔ ∃ v, i.wlat = some v ∧ t.writeAlert ≤ v * 1000) ∧
    (read_alert i t = true ↔ ∃ v, i.rlat = some v ∧ t.readAlert ≤ v * 1000) ∧
    (i.wlat = some (1 / 4) →
      fmt_ms (write_ms i) = "250 ms" ∧
      writeStatus i defaultThresholds = Status.WARN) := by
  refine ⟨?_, ?_, ?_, ?_, ?_⟩
  · intro v hv; simp [write_ms, hv]
  · intro v hv; simp [read_ms, hv]
  · rcases hv : i.wlat with _ | v <;>
      simp [write_alert, isGeCut, write_ms, hv]
  · rcases hv : i.rlat with _ | v <;>
      simp [read_alert, isGeCut, read_ms, hv]
  · intro hv
    have h250 : (1 / 4 : ℚ) * 1000 = 250 := by norm_num
    have hms : write_ms i = some 250 := by
      simp only [write_ms, hv, Option.map_some']
      norm_num
    constructor
    · rw [hms]; decide
    · simp only [writeStatus, write_alert, hms]
      decide

/-- C9 witness: a 0.25-second write-latency reading renders as `"250 ms"`
and evaluates to WARN with the default cutoffs. -/
theorem latency_ms_conversion_witness :
    fmt_ms (write_ms iQuarterSec) = "250 ms" ∧
    writeStatus iQuarterSec defaultThresholds = Status.WARN :=
  (latency_ms_conversion iQuarterSec defaultThresholds).2.2.2.2 rfl

/-- C10: for the four cutoff dimensions, a known converted value of exactly
0 is never WARN under any cutoff configuration — it is ALERT exactly when
it meets the ALERT comparison and OK otherwise. -/
theorem zero_value_never_warn (i : DBInstance) (t : Thresholds) :
    (write_ms i = some 0 → writeStatus i t ≠ Status.WARN ∧
      (writeStatus i t = Status.ALERT ↔ t.writeAlert ≤ 0)) ∧
    (read_ms i = some 0 → readStatus i t ≠ Status.WARN ∧
      (readStatus i t = Status.ALERT ↔ t.readAlert ≤ 0)) ∧
    (cpu_pct i = some 0 → cpuStatus i t ≠ Status.WARN ∧
      (cpuStatus i t = Status.ALERT ↔ t.cpuAlert ≤ 0)) ∧
    (free_pct i = some 0 → freeStatus i t ≠ Status.WARN ∧
      (freeStatus i t = Status.ALERT ↔ 0 ≤ t.freeAlert)) := by
  refine ⟨?_, ?_, ?_, ?_⟩
  · intro h
    by_cases hc : t.writeAlert ≤ 0 <;>
      simp [writeStatus, write_alert, isGeCut, truthyGe, h, hc]
  · intro h
    by_cases hc : t.readAlert ≤ 0 <;>
      simp [readStatus, read_alert, isGeCut, truthyGe, h, hc]
  · intro h
    by_cases hc : t.cpuAlert ≤ 0 <;>
      simp [cpuStatus, cpu_alert, isGeCut, truthyGe, h, hc]
  · intro h
    by_cases hc : (0 : ℚ) ≤ t.freeAlert <;>
      simp [freeStatus, free_alert, isLeCut, truthyLe, h, hc]

/-- C10 witness: with all readings exactly zero and default cutoffs, the
latency and CPU dimensions are not WARN (they are OK) and the free-space
dimension is not WARN (it is ALERT, since 0 ≤ 10). -/
theorem zero_value_never_warn_witness :
    writeStatus iZeroMetrics defaultThresholds ≠ Status.WARN ∧
    freeStatus iZeroMetrics defaultThresholds ≠ Status.WARN :=
  ⟨((zero_value_never_warn iZeroMetrics defaultThresholds).1
      (by simp [write_ms, iZeroMetrics])).1,
   ((zero_value_never_warn iZeroMetrics defaultThresholds).2.2.2
      (by norm_num [free_pct, iZeroMetrics, iAllOk])).1⟩

/-- C4: the run outcome is total — empty inventory returns sent=false with
reason `"no-instances"`; non-empty inventory with no failing instance
returns sent=false with reason `"no-issues"`; otherwise the run proceeds to
dispatch and returns sent=true with the count of failing instances. -/
theorem run_outcome_total (region : String) (t : Thresholds)
    (instances : List DBInstance) :
    (instances = [] → run region t instances =
      { ok := true, instances := 0, sent := false,
        reason := some "no-instances", issues := none }) ∧
    (instances ≠ [] → (∀ i ∈ instances, row_has_issue i t = false) →
      run region t instances =
        { ok := true, instances := instances.length, sent := false,
          reason := some "no-issues", issues := none }) ∧
    ((∃ i ∈ instances, row_has_issue i t = true) →
      run region t instances =
        { ok := true, instances := instances.length, sent := true,
          reason := none,
          issues := some (instances.countP (fun i => row_has_issue i t)) }) := by
  refine ⟨?_, ?_, ?_⟩
  · rintro rfl; rfl
  · intro hne hall
    have hrows : (rowsOf region t instances).isEmpty = false := by
      cases instances with
      | nil => exact absurd rfl hne
      | cons a l => rfl
    have hfail : failingRows region t instances = [] := by
      rw [failingRows_eq]
      rw [List.filter_eq_nil_iff.mpr (fun a ha => by simp [hall a ha])]
      rfl
    simp [run, hrows, hfail, rowsOf, hne]
  · rintro ⟨i, hi, hflag⟩
    have hne : instances ≠ [] := by
      rintro rfl
      exact (List.not_mem_nil i) hi
    have hrows : (rowsOf region t instances).isEmpty = false := by
      cases instances with
      | nil => exact absurd rfl hne
      | cons a l => rfl
    have hmemf : i ∈ instances.filter (fun j => row_has_issue j t) :=
      List.mem_filter.mpr ⟨hi, hflag⟩
    have hfail : failingRows region t instances ≠ [] := by
      rw [failingRows_eq]
      intro h
      have hmm := List.mem_map_of_mem (fun j => evalRow region j t) hmemf
      rw [h] at hmm
      exact (List.not_mem_nil _) hmm
    have hfailE : (failingRows region t instances).isEmpty = false :=
      Bool.eq_false_iff.mpr (fun h => hfail (List.isEmpty_iff.mp h))
    have hlen : (failingRows region t instances).length =
        instances.countP (fun j => row_has_issue j t) := by
      rw [failingRows_eq, List.length_map, List.countP_eq_length_filter]
    simp [run, hrows, hfailE, rowsOf, hlen, hne]

/-- C4 witness: the three outcomes at concrete inputs — empty inventory,
one healthy instance, one publicly accessible (failing) instance. -/
theorem run_outcome_total_witness :
    run "us-east-1" defaultThresholds [] =
      { ok := true, instances := 0, sent := false,
        reason := some "no-instances", issues := none } ∧
    run "us-east-1" defaultThresholds [iAllOk] =
      { ok := true, instances := 1, sent := false,
        reason := some "no-issues", issues := none } ∧
    run "us-east-1" defaultThresholds [iPublicOn] =
      { ok := true, instances := 1, sent := true,
        reason := none, issues := some 1 } := by
  refine ⟨(run_outcome_total "us-east-1" defaultThresholds []).1 rfl, ?_, ?_⟩
  · exact (run_outcome_total "us-east-1" defaultThresholds [iAllOk]).2.1
      (by simp)
      (by intro i hi
          rw [List.mem_singleton] at hi
          subst hi
          decide)
  · exact (run_outcome_total "us-east-1" defaultThresholds [iPublicOn]).2.2
      ⟨iPublicOn, List.mem_singleton.mpr rfl, by decide⟩

/-- C5: the Teams card and the email table render the same filtered,
order-preserved failing sequence with the same number of data rows; every
row has 11 cells, the 10 non-DB cells are character-for-character identical
across the two outputs, and the DB cell of each row is the Markdown link
and the HTML anchor built from the same identifier, console URL, and name
tag of one inventoried instance. -/
theorem render_paths_consistent (region : String) (t : Thresholds)
    (instances : List DBInstance) :
    (renderCardRows (failingRows region t instances)).length =
      (renderEmailRows (failingRows region t instances)).length ∧
    (renderCardRows (failingRows region t instances)).length =
      (failingRows region t instances).length ∧
    (∀ r ∈ failingRows region t instances,
      (teamsRowCells r).length = 11 ∧ (emailRowCells r).length = 11 ∧
      (teamsRowCells r).drop 1 = (emailRowCells r).drop 1 ∧
      ∃ i, i ∈ instances ∧
        (teamsRowCells r).headD "" =
          db_cell_teams (rds_link region i.dbid) i.dbid i.nameTag ∧
        (emailRowCells r).headD "" =
          db_cell_email (rds_link region i.dbid) i.dbid i.nameTag) := by
  refine ⟨by simp [renderCardRows, renderEmailRows],
    by simp [renderCardRows], ?_⟩
  intro r hr
  rw [failingRows_eq] at hr
  obtain ⟨i, hi, rfl⟩ := List.mem_map.mp hr
  exact ⟨rfl, rfl, rfl, i, (List.mem_filter.mp hi).1, rfl, rfl⟩

/-- C5 witness: for a concrete failing instance, the card row and the email
row agree on all cells except the DB link cell. -/
theorem render_paths_consistent_witness :
    (teamsRowCells (evalRow "us-east-1" iPublicOn defaultThresholds)).drop 1 =
      (emailRowCells (evalRow "us-east-1" iPublicOn defaultThresholds)).drop 1 :=
  (((render_paths_consistent "us-east-1" defaultThresholds [iPublicOn]).2.2
      (evalRow "us-east-1" iPublicOn defaultThresholds)
      (by rw [failingRows_eq]
          exact List.mem_map_of_mem _
            (List.mem_filter.mpr ⟨List.mem_singleton.mpr rfl, by decide⟩))).2.2).1

/-- C6: the failing-row filter keeps exactly the rows whose issue flag is
true, preserves the original inventory order (the result is a sublist of
the full row list), and is empty when every instance passes. -/
theorem filter_failing_spec (region : String) (t : Thresholds)
    (instances : List DBInstance) :
    failingRows region t instances =
      (instances.filter (fun i => row_has_issue i t)).map
        (fun i => evalRow region i t) ∧
    (failingRows region t instances).Sublist (rowsOf region t instances) ∧
    ((∀ i ∈ instances, row_has_issue i t = false) →
      failingRows region t instances = []) := by
  refine ⟨failingRows_eq region t instances, ?_, ?_⟩
  · rw [failingRows_eq, rowsOf]
    exact List.Sublist.map _ (List.filter_sublist instances)
  · intro hall
    rw [failingRows_eq]
    rw [List.filter_eq_nil_iff.mpr (fun a ha => by simp [hall a ha])]
    rfl

/-- C6 witness: one all-healthy instance yields an empty failing set. -/
theorem filter_failing_spec_witness :
    failingRows "us-east-1" defaultThresholds [iAllOk] = [] :=
  (filter_failing_spec "us-east-1" defaultThresholds [iAllOk]).2.2
    (by intro i hi
        rw [List.mem_singleton] at hi
        subst hi
        decide)

end RdsDash
